import Mathlib

/-!
Shallow embedding of the animation-sequencer core of the
`valentine-express` repository, together with proofs settling the frozen
claims about its specification.

Source files embedded here:
  * `src/assets/js/components/IntroSlides.js` — the `IntroSlides` class
    (slide sequencer state machine);
  * `src/assets/js/main.js` — the `LetterDisplay` class, specifically the
    `wordDelay` computation and `animateParagraph` (progressive typewriter
    reveal).

Modelling conventions:
  * The JavaScript code is single-threaded, cooperative (async/await over
    `setTimeout`).  Each operation is embedded as a pure function from a
    `State` to a `State` paired with the list of observable events it
    emits during an *uninterrupted* run (no other operation interleaves
    with its suspensions).  A `wait(d)` suspension is recorded as an
    `Event.waited d` and, as in the source, pushes its timer handle onto
    `state.timeouts` (the source stores the id returned by `setTimeout`;
    we store the duration as the handle — only membership/emptiness of the
    list matters, a fired timer's handle stays in the array exactly as in
    the source, and `clearTimeouts` empties it).
  * Callback payloads and DOM `CustomEvent` details are JavaScript
    objects; they are embedded as association lists from field name to
    `JsValue`, preserving the source's literal field names.
  * DOM-only effects with no bearing on any claim (progress-bar width and
    CSS step classes, aria announcements, decorative floating-heart
    spawning, which uses untracked `setTimeout`s the source never cancels)
    are not part of the event trace; the slide enter/exit visibility
    changes are kept because claims refer to which items are (re-)shown.
  * `Date.now()` is threaded in as an explicit clock argument.  The source
    initialises `startTime` to `null`; JavaScript coerces `null` to `0` in
    the subtraction `Date.now() - this.state.startTime`, which
    `Option.getD 0` mirrors.
  * JavaScript loop indices are numbers; every index reaching `showSlide`
    is an integer `≥ 0` (loops start at `0` or at `currentSlide + 1` with
    `currentSlide ≥ -1`), so loop iteration spaces are embedded as lists
    of naturals (`List.range` / `List.range'`), matching the
    `for (let i = a; i < b; i++)` iteration space, and the source's
    `index < 0` guard in `showSlide` is vacuous.
-/

namespace IntroSlides

/-- Configuration of the `IntroSlides` component (constructor defaults:
five messages, `slideDelay = 800`, `transitionDuration = 800`).
`numSlides` is the number of `.slide` DOM elements found in the container
(`this.elements.slides.length`), which is fixed by the page markup and
need not equal `messages.length`. -/
structure Config where
  messages : List String
  slideDelay : Nat
  transitionDuration : Nat
  numSlides : Nat
  deriving Repr, DecidableEq

/-- Mutable state of the `IntroSlides` component (`this.state`). -/
structure State where
  currentSlide : Int
  isPlaying : Bool
  isPaused : Bool
  isCompleted : Bool
  startTime : Option Nat
  timeouts : List Nat
  deriving Repr, DecidableEq

/-- State as initialised by the constructor: `currentSlide: -1`, all flags
false, `startTime: null`, `timeouts: []`. -/
def initialState : State :=
  { currentSlide := -1, isPlaying := false, isPaused := false,
    isCompleted := false, startTime := none, timeouts := [] }

/-- JavaScript values appearing in callback payloads and event details. -/
inductive JsValue where
  | num (n : Int)
  | str (s : String)
  | componentRef
  deriving Repr, DecidableEq

/-- JavaScript object literal, as an association list of named fields. -/
abbrev JsObject := List (String × JsValue)

/-- Observable events of a run: callback invocations, the dispatched DOM
completion event, slide visibility changes, scheduled suspensions. -/
inductive Event where
  | slideStart (index : Nat) (message : Option String)
  | slideExit (prevIndex : Nat)
  | slideComplete (index : Nat) (message : Option String)
  | progress (current : Nat) (total : Nat)
  | sequenceComplete (payload : JsObject)
  | domEvent (name : String) (detail : JsObject)
  | scheduleHide (delayMs : Nat)
  | waited (ms : Nat)
  deriving Repr, DecidableEq

/-- Embedding of `wait(duration)`: schedules a tracked timer (the source
pushes the `setTimeout` handle onto `this.state.timeouts`) and, in an
uninterrupted run, suspends until it fires. -/
def wait (duration : Nat) (s : State) : State × List Event :=
  ({ s with timeouts := s.timeouts ++ [duration] }, [Event.waited duration])

/-- Embedding of `clearTimeouts()`: cancels every tracked timer and empties
the array. -/
def clearTimeouts (s : State) : State :=
  { s with timeouts := [] }

/-- Embedding of `showSlide(index)` (uninterrupted run).  Guard: the source
returns when `index < 0 || index >= this.elements.slides.length`; the
negative case is vacuous for `Nat` indices.  The body updates
`currentSlide`, fires `onSlideStart`, marks the previous slide exiting
(when `previousIndex` addresses an existing slide element), waits for the
transition, then fires `onSlideComplete` and `onProgress`. -/
def showSlide (cfg : Config) (s : State) (index : Nat) : State × List Event :=
  if cfg.numSlides ≤ index then (s, [])
  else
    let previousIndex := s.currentSlide
    let s1 := { s with currentSlide := (index : Int) }
    let message := cfg.messages[index]?
    let exitEvents :=
      if 0 ≤ previousIndex ∧ previousIndex < (cfg.numSlides : Int) then
        [Event.slideExit previousIndex.toNat]
      else []
    let w := wait cfg.transitionDuration s1
    (w.1,
      [Event.slideStart index message] ++ exitEvents ++ w.2
        ++ [Event.slideComplete index message,
            Event.progress (index + 1) cfg.messages.length])

/-- Embedding of `complete()`: unconditionally flips the state flags to
Completed, fires `onSequenceComplete` with payload
`{ duration, slideCount }`, dispatches the `introSlidesComplete`
`CustomEvent` with detail `{ component, duration }`, and schedules the
auto-hide via an untracked `setTimeout(..., 1000)`.  The source contains
no guard on `isCompleted`. -/
def complete (cfg : Config) (now : Nat) (s : State) : State × List Event :=
  let duration : Int := (now : Int) - ((s.startTime.getD 0 : Nat) : Int)
  ({ s with isPlaying := false, isPaused := false, isCompleted := true },
    [Event.sequenceComplete
        [("duration", JsValue.num duration),
         ("slideCount", JsValue.num cfg.messages.length)],
     Event.domEvent "introSlidesComplete"
        [("component", JsValue.componentRef),
         ("duration", JsValue.num duration)],
     Event.scheduleHide 1000])

/-- Embedding of the shared slide loop body of `playSequence` /
`continueSequence`, iterating over the loop's index space: at each index,
break if `!isPlaying || isPaused`, show the slide, and wait `slideDelay`
unless it is the last message index. -/
def playLoopOver (cfg : Config) : State → List Nat → State × List Event
  | s, [] => (s, [])
  | s, i :: rest =>
    if !s.isPlaying || s.isPaused then (s, [])
    else
      let p := showSlide cfg s i
      if i < cfg.messages.length - 1 then
        let w := wait cfg.slideDelay p.1
        let q := playLoopOver cfg w.1 rest
        (q.1, p.2 ++ w.2 ++ q.2)
      else
        let q := playLoopOver cfg p.1 rest
        (q.1, p.2 ++ q.2)

/-- Embedding of `playSequence()` (uninterrupted run): the slide loop over
indices `0 .. messages.length - 1`, then — if still playing and not
paused — a fixed `wait(400)` and `complete()`. -/
def playSequence (cfg : Config) (now : Nat) (s : State) : State × List Event :=
  let p := playLoopOver cfg s (List.range cfg.messages.length)
  if p.1.isPlaying && !p.1.isPaused then
    let w := wait 400 p.1
    let c := complete cfg now w.1
    (c.1, p.2 ++ w.2 ++ c.2)
  else p

/-- Embedding of `continueSequence()` (uninterrupted run): the slide loop
over indices `currentSlide + 1 .. messages.length - 1`, then — if still
playing and not paused — `wait(slideDelay)` and `complete()`.  Note the
trailing wait is `slideDelay`, not the `400` of `playSequence`. -/
def continueSequence (cfg : Config) (now : Nat) (s : State) : State × List Event :=
  let first := (s.currentSlide + 1).toNat
  let p := playLoopOver cfg s (List.range' first (cfg.messages.length - first))
  if p.1.isPlaying && !p.1.isPaused then
    let w := wait cfg.slideDelay p.1
    let c := complete cfg now w.1
    (c.1, p.2 ++ w.2 ++ c.2)
  else p

/-- Synchronous state update performed by `start()` before the play loop
begins: sets `isPlaying`, clears `isPaused`, records `startTime`.
`start()` does not touch `currentSlide` (only `resetSlides()` does). -/
def startStateUpdate (now : Nat) (s : State) : State :=
  { s with isPlaying := true, isPaused := false, startTime := some now }

/-- Embedding of `start()` (uninterrupted run): no-op when already playing
or completed; otherwise the synchronous flag/timestamp update followed by
`playSequence()`.  `startNow` is `Date.now()` at start, `completeNow` the
clock when `complete()` eventually runs. -/
def start (cfg : Config) (startNow completeNow : Nat) (s : State) :
    State × List Event :=
  if s.isPlaying || s.isCompleted then (s, [])
  else playSequence cfg completeNow (startStateUpdate startNow s)

/-- Embedding of `pause()`: no-op unless playing and not already paused;
otherwise sets `isPaused` and cancels every tracked timer. -/
def pause (s : State) : State :=
  if !s.isPlaying || s.isPaused then s
  else clearTimeouts { s with isPaused := true }

/-- Synchronous state update performed by `resume()` before
`continueSequence()` runs: clears `isPaused` (back to Playing). -/
def resumeStateUpdate (s : State) : State :=
  { s with isPaused := false }

/-- Embedding of `resume()` (uninterrupted run): no-op unless playing and
paused; otherwise clears `isPaused` and continues from
`currentSlide + 1`. -/
def resume (cfg : Config) (now : Nat) (s : State) : State × List Event :=
  if !s.isPlaying || !s.isPaused then (s, [])
  else continueSequence cfg now (resumeStateUpdate s)

/-- Embedding of `skip()`: cancels tracked timers and calls `complete()`
unconditionally. -/
def skip (cfg : Config) (now : Nat) (s : State) : State × List Event :=
  complete cfg now (clearTimeouts s)

/-- Embedding of `stop()`: clears the playing/paused flags and cancels
tracked timers. -/
def stop (s : State) : State :=
  clearTimeouts { s with isPlaying := false, isPaused := false }

/-- Embedding of `nextSlide()`: no-op unless playing and not at the last
message; otherwise cancels tracked timers and shows `currentSlide + 1`. -/
def nextSlide (cfg : Config) (s : State) : State × List Event :=
  if !s.isPlaying || (cfg.messages.length : Int) - 1 ≤ s.currentSlide then (s, [])
  else showSlide cfg (clearTimeouts s) ((s.currentSlide + 1).toNat)

/-- Embedding of `resetSlides()`: resets `currentSlide` to `-1` and clears
the completed flag (the DOM style resets are not modelled). -/
def resetSlides (s : State) : State :=
  { s with currentSlide := -1, isCompleted := false }

/-- Tasks scheduled by the `handleError` fallback. -/
inductive FallbackTask where
  | revealSlide (index : Nat)
  | callComplete
  deriving Repr, DecidableEq

/-- Embedding of `handleError(error)`: stops playing and schedules, via
untracked `setTimeout`s, the reveal of every slide element `index` at
delay `index * 200` ms and a single `complete()` at delay
`messages.length * 200 + 1000` ms.  Returned as the list of
(delay, task) pairs in scheduling order. -/
def handleError (cfg : Config) (s : State) :
    State × List (Nat × FallbackTask) :=
  ({ s with isPlaying := false },
    ((List.range cfg.numSlides).map
        fun index => (index * 200, FallbackTask.revealSlide index))
      ++ [(cfg.messages.length * 200 + 1000, FallbackTask.callComplete)])

/-- Indices of the `onSlideStart` callback invocations in a trace, in
order. -/
def slideStartIndices (es : List Event) : List Nat :=
  es.filterMap fun e =>
    match e with
    | Event.slideStart i _ => some i
    | _ => none

/-- Indices of the `onSlideComplete` callback invocations in a trace, in
order. -/
def slideCompleteIndices (es : List Event) : List Nat :=
  es.filterMap fun e =>
    match e with
    | Event.slideComplete i _ => some i
    | _ => none

/-- Payloads of the `onSequenceComplete` callback invocations in a trace,
in order. -/
def sequenceCompletePayloads (es : List Event) : List JsObject :=
  es.filterMap fun e =>
    match e with
    | Event.sequenceComplete payload => some payload
    | _ => none

/-- Details of the dispatched `introSlidesComplete` DOM events in a trace,
in order. -/
def broadcastDetails (es : List Event) : List JsObject :=
  es.filterMap fun e =>
    match e with
    | Event.domEvent n detail =>
        if n = "introSlidesComplete" then some detail else none
    | _ => none

/-- Indices of the slide elements marked as exiting in a trace, in
order. -/
def slideExitIndices (es : List Event) : List Nat :=
  es.filterMap fun e =>
    match e with
    | Event.slideExit i => some i
    | _ => none

end IntroSlides

namespace LetterDisplay

/-- Configuration fields of the `LetterDisplay` component relevant to the
typewriter reveal (constructor defaults: `typewriterSpeed = 50`,
`paragraphDelay = 200`). -/
structure Config where
  typewriterSpeed : Nat
  paragraphDelay : Nat
  deriving Repr, DecidableEq

/-- Per-word delay of `animateParagraph`: the source triples
`typewriterSpeed` when `word.includes` one of the characters `.`, `!`,
`?` — containment anywhere in the word, not only at its end.  For a
single-character needle, `includes` is character membership, embedded here
over the string's character list. -/
def wordDelay (typewriterSpeed : Nat) (word : String) : Nat :=
  if word.data.contains '.' || word.data.contains '!' || word.data.contains '?' then
    typewriterSpeed * 3
  else typewriterSpeed

/-- Predicate written from the claim's wording (not from the source, which
uses containment): the word ends with terminal punctuation `.`, `!` or
`?`, i.e. its last character is one of them.  Used to compare the claimed
delay rule with the source's rule. -/
def specEndsWithTerminal (word : String) : Bool :=
  word.data.getLast? == some '.' || word.data.getLast? == some '!'
    || word.data.getLast? == some '?'

/-- Word-typing loop of `animateParagraph` (uninterrupted or aborted run):
at loop counter `i` with remaining words `w :: rest`, if the
`typewriterActive` flag (read as `active i` at the check before word `i`)
is still set, the displayed text-node content becomes
`words.slice(0, i+1).join(' ') + ' '` and the loop waits `wordDelay`;
otherwise it breaks.  Returns the successive (displayed text, delay)
pairs. -/
def typeLoop (speed : Nat) (active : Nat → Bool) (allWords : List String) :
    Nat → List String → List (String × Nat)
  | _, [] => []
  | i, w :: rest =>
    if active i then
      (String.intercalate " " (allWords.take (i + 1)) ++ " ", wordDelay speed w)
        :: typeLoop speed active allWords (i + 1) rest
    else []

/-- Result of one `animateParagraph` run. -/
structure ParagraphRun where
  typedStates : List (String × Nat)
  finalText : String
  typedComplete : Bool
  deriving Repr, DecidableEq

/-- Embedding of `animateParagraph(paragraph, index)`: reads
`originalText`, splits it on single spaces (`split(' ')`), runs the
word-typing loop (which the `active` flag may abort before any word),
then removes the cursor, assigns `paragraph.textContent = originalText`
and marks the paragraph `typed-complete`.  The final assignment is
unconditional in the source: it runs whether the loop finished or was
aborted. -/
def animateParagraph (cfg : Config) (active : Nat → Bool) (text : String) :
    ParagraphRun :=
  let originalText := text
  let words := text.splitOn " "
  { typedStates := typeLoop cfg.typewriterSpeed active words 0 words,
    finalText := originalText,
    typedComplete := true }

end LetterDisplay

namespace IntroSlides

/-- Concrete three-message configuration with three slide elements, used to
instantiate theorems on concrete inputs. -/
def witnessConfig : Config :=
  { messages := ["Hi", "Happy", "Day"], slideDelay := 800,
    transitionDuration := 800, numSlides := 3 }

/-- Concrete reachable state: playing at slide 1 with two tracked pending
timers. -/
def playingState : State :=
  { currentSlide := 1, isPlaying := true, isPaused := false,
    isCompleted := false, startTime := some 0, timeouts := [800, 800] }

/-- Concrete reachable state: paused at slide 1 (the `isPlaying` flag stays
set while paused, as in the source). -/
def pausedState : State :=
  { currentSlide := 1, isPlaying := true, isPaused := true,
    isCompleted := false, startTime := some 0, timeouts := [] }

/-- Concrete idle state in which `currentSlide` is 2, e.g. reached by
playing to slide 2, pausing, then `stop()` — without `resetSlides()`. -/
def midState : State :=
  { currentSlide := 2, isPlaying := false, isPaused := false,
    isCompleted := false, startTime := none, timeouts := [] }

/-- Concrete state just after the synchronous part of a fresh `start()`:
playing, nothing shown yet. -/
def freshPlayingState : State :=
  { currentSlide := -1, isPlaying := true, isPaused := false,
    isCompleted := false, startTime := some 0, timeouts := [] }

/-- Predicate on scheduled fallback tasks: is it the `complete()` call? -/
def isCallComplete (p : Nat × FallbackTask) : Bool :=
  match p.2 with
  | FallbackTask.callComplete => true
  | FallbackTask.revealSlide _ => false

/-! Helper lemmas about the embedded operations. -/

theorem showSlide_isPlaying (cfg : Config) (s : State) (i : Nat) :
    (showSlide cfg s i).1.isPlaying = s.isPlaying := by
  unfold showSlide wait
  split <;> rfl

theorem showSlide_isPaused (cfg : Config) (s : State) (i : Nat) :
    (showSlide cfg s i).1.isPaused = s.isPaused := by
  unfold showSlide wait
  split <;> rfl

theorem showSlide_startTime (cfg : Config) (s : State) (i : Nat) :
    (showSlide cfg s i).1.startTime = s.startTime := by
  unfold showSlide wait
  split <;> rfl

theorem playLoopOver_isPlaying (cfg : Config) :
    ∀ (l : List Nat) (s : State),
      (playLoopOver cfg s l).1.isPlaying = s.isPlaying := by
  intro l
  induction l with
  | nil => intro s; rfl
  | cons i rest ih =>
    intro s
    unfold playLoopOver
    split
    · rfl
    · dsimp only
      split
      · rw [ih]
        exact showSlide_isPlaying cfg s i
      · rw [ih, showSlide_isPlaying]

theorem playLoopOver_isPaused (cfg : Config) :
    ∀ (l : List Nat) (s : State),
      (playLoopOver cfg s l).1.isPaused = s.isPaused := by
  intro l
  induction l with
  | nil => intro s; rfl
  | cons i rest ih =>
    intro s
    unfold playLoopOver
    split
    · rfl
    · dsimp only
      split
      · rw [ih]
        exact showSlide_isPaused cfg s i
      · rw [ih, showSlide_isPaused]

theorem playLoopOver_startTime (cfg : Config) :
    ∀ (l : List Nat) (s : State),
      (playLoopOver cfg s l).1.startTime = s.startTime := by
  intro l
  induction l with
  | nil => intro s; rfl
  | cons i rest ih =>
    intro s
    unfold playLoopOver
    split
    · rfl
    · dsimp only
      split
      · rw [ih]
        exact showSlide_startTime cfg s i
      · rw [ih, showSlide_startTime]

theorem slideStartIndices_append (es fs : List Event) :
    slideStartIndices (es ++ fs) = slideStartIndices es ++ slideStartIndices fs :=
  List.filterMap_append es fs _

theorem slideCompleteIndices_append (es fs : List Event) :
    slideCompleteIndices (es ++ fs)
      = slideCompleteIndices es ++ slideCompleteIndices fs :=
  List.filterMap_append es fs _

theorem sequenceCompletePayloads_append (es fs : List Event) :
    sequenceCompletePayloads (es ++ fs)
      = sequenceCompletePayloads es ++ sequenceCompletePayloads fs :=
  List.filterMap_append es fs _

theorem broadcastDetails_append (es fs : List Event) :
    broadcastDetails (es ++ fs)
      = broadcastDetails es ++ broadcastDetails fs :=
  List.filterMap_append es fs _

theorem slideStartIndices_showSlide (cfg : Config) (s : State) (i : Nat)
    (h : i < cfg.numSlides) :
    slideStartIndices (showSlide cfg s i).2 = [i] := by
  unfold showSlide
  rw [if_neg (by omega)]
  dsimp only
  split <;> simp [slideStartIndices, wait]

theorem slideCompleteIndices_showSlide (cfg : Config) (s : State) (i : Nat)
    (h : i < cfg.numSlides) :
    slideCompleteIndices (showSlide cfg s i).2 = [i] := by
  unfold showSlide
  rw [if_neg (by omega)]
  dsimp only
  split <;> simp [slideCompleteIndices, wait]

theorem sequenceCompletePayloads_showSlide (cfg : Config) (s : State) (i : Nat) :
    sequenceCompletePayloads (showSlide cfg s i).2 = [] := by
  unfold showSlide
  split
  · rfl
  · dsimp only
    split <;> simp [sequenceCompletePayloads, wait]

theorem broadcastDetails_showSlide (cfg : Config) (s : State) (i : Nat) :
    broadcastDetails (showSlide cfg s i).2 = [] := by
  unfold showSlide
  split
  · rfl
  · dsimp only
    split <;> simp [broadcastDetails, wait]

theorem slideStartIndices_playLoopOver (cfg : Config) :
    ∀ (l : List Nat) (s : State), s.isPlaying = true → s.isPaused = false →
      (∀ i ∈ l, i < cfg.numSlides) →
      slideStartIndices (playLoopOver cfg s l).2 = l := by
  intro l
  induction l with
  | nil => intro s _ _ _; rfl
  | cons i rest ih =>
    intro s hp hq hlt
    unfold playLoopOver
    rw [if_neg (by simp [hp, hq])]
    dsimp only
    have hflag1 := showSlide_isPlaying cfg s i
    have hflag2 := showSlide_isPaused cfg s i
    split
    · rw [slideStartIndices_append, slideStartIndices_append,
        slideStartIndices_showSlide cfg s i (hlt i (by simp)),
        ih _ (by simp [wait, hflag1, hp]) (by simp [wait, hflag2, hq])
          (fun j hj => hlt j (by simp [hj]))]
      simp [slideStartIndices, wait]
    · rw [slideStartIndices_append,
        slideStartIndices_showSlide cfg s i (hlt i (by simp)),
        ih _ (by simp [hflag1, hp]) (by simp [hflag2, hq])
          (fun j hj => hlt j (by simp [hj]))]
      rfl

theorem slideCompleteIndices_playLoopOver (cfg : Config) :
    ∀ (l : List Nat) (s : State), s.isPlaying = true → s.isPaused = false →
      (∀ i ∈ l, i < cfg.numSlides) →
      slideCompleteIndices (playLoopOver cfg s l).2 = l := by
  intro l
  induction l with
  | nil => intro s _ _ _; rfl
  | cons i rest ih =>
    intro s hp hq hlt
    unfold playLoopOver
    rw [if_neg (by simp [hp, hq])]
    dsimp only
    have hflag1 := showSlide_isPlaying cfg s i
    have hflag2 := showSlide_isPaused cfg s i
    split
    · rw [slideCompleteIndices_append, slideCompleteIndices_append,
        slideCompleteIndices_showSlide cfg s i (hlt i (by simp)),
        ih _ (by simp [wait, hflag1, hp]) (by simp [wait, hflag2, hq])
          (fun j hj => hlt j (by simp [hj]))]
      simp [slideCompleteIndices, wait]
    · rw [slideCompleteIndices_append,
        slideCompleteIndices_showSlide cfg s i (hlt i (by simp)),
        ih _ (by simp [hflag1, hp]) (by simp [hflag2, hq])
          (fun j hj => hlt j (by simp [hj]))]
      rfl

theorem sequenceCompletePayloads_playLoopOver (cfg : Config) :
    ∀ (l : List Nat) (s : State),
      sequenceCompletePayloads (playLoopOver cfg s l).2 = [] := by
  intro l
  induction l with
  | nil => intro s; rfl
  | cons i rest ih =>
    intro s
    unfold playLoopOver
    split
    · rfl
    · dsimp only
      split
      · rw [sequenceCompletePayloads_append, sequenceCompletePayloads_append,
          sequenceCompletePayloads_showSlide, ih]
        simp [sequenceCompletePayloads, wait]
      · rw [sequenceCompletePayloads_append,
          sequenceCompletePayloads_showSlide, ih]
        rfl

theorem broadcastDetails_playLoopOver (cfg : Config) :
    ∀ (l : List Nat) (s : State),
      broadcastDetails (playLoopOver cfg s l).2 = [] := by
  intro l
  induction l with
  | nil => intro s; rfl
  | cons i rest ih =>
    intro s
    unfold playLoopOver
    split
    · rfl
    · dsimp only
      split
      · rw [broadcastDetails_append, broadcastDetails_append,
          broadcastDetails_showSlide, ih]
        simp [broadcastDetails, wait]
      · rw [broadcastDetails_append, broadcastDetails_showSlide, ih]
        rfl

theorem playLoopOver_paused (cfg : Config) (s : State) (hq : s.isPaused = true) :
    ∀ l : List Nat, playLoopOver cfg s l = (s, []) := by
  intro l
  cases l with
  | nil => rfl
  | cons i rest =>
    unfold playLoopOver
    rw [if_pos (by simp [hq])]

/-- C1: for every configured message list of length `N ≥ 1`, with at least
`N` slide elements present, an uninterrupted play-through started by
`start()` invokes `onSlideStart` and `onSlideComplete` exactly `N` times
each with index arguments in strictly increasing order `0 .. N-1` (their
index lists both equal `List.range N`), and invokes `onSequenceComplete`
exactly once at the end. -/
theorem claim1_playthrough_callbacks (cfg : Config) (t0 t1 : Nat) (s : State)
    (hplay : s.isPlaying = false) (hcomp : s.isCompleted = false)
    (hN : 1 ≤ cfg.messages.length)
    (hS : cfg.messages.length ≤ cfg.numSlides) :
    slideStartIndices (start cfg t0 t1 s).2 = List.range cfg.messages.length ∧
    slideCompleteIndices (start cfg t0 t1 s).2
      = List.range cfg.messages.length ∧
    (sequenceCompletePayloads (start cfg t0 t1 s).2).length = 1 := by
  unfold start
  rw [if_neg (by simp [hplay, hcomp])]
  unfold playSequence
  dsimp only
  rw [if_pos (by rw [playLoopOver_isPlaying, playLoopOver_isPaused]; rfl)]
  have hbound : ∀ i ∈ List.range cfg.messages.length, i < cfg.numSlides :=
    fun i hi => lt_of_lt_of_le (List.mem_range.mp hi) hS
  refine ⟨?_, ?_, ?_⟩
  · rw [slideStartIndices_append, slideStartIndices_append,
      slideStartIndices_playLoopOver cfg _ _ rfl rfl hbound]
    simp [wait, complete, slideStartIndices]
  · rw [slideCompleteIndices_append, slideCompleteIndices_append,
      slideCompleteIndices_playLoopOver cfg _ _ rfl rfl hbound]
    simp [wait, complete, slideCompleteIndices]
  · rw [sequenceCompletePayloads_append, sequenceCompletePayloads_append,
      sequenceCompletePayloads_playLoopOver]
    simp [wait, complete, sequenceCompletePayloads]

/-- Witness for C1: the three-message configuration played through from the
initial state fires the callbacks at indices `[0, 1, 2]` and completes
once. -/
theorem claim1_witness :
    initialState.isPlaying = false ∧ initialState.isCompleted = false ∧
    1 ≤ witnessConfig.messages.length ∧
    witnessConfig.messages.length ≤ witnessConfig.numSlides ∧
    (slideStartIndices (start witnessConfig 0 3 initialState).2
        = List.range witnessConfig.messages.length ∧
      slideCompleteIndices (start witnessConfig 0 3 initialState).2
        = List.range witnessConfig.messages.length ∧
      (sequenceCompletePayloads (start witnessConfig 0 3 initialState).2).length
        = 1) :=
  ⟨rfl, rfl, by decide, by decide,
    claim1_playthrough_callbacks witnessConfig 0 3 initialState rfl rfl
      (by decide) (by decide)⟩

/-- Counterexample for C2: from a playing state, two successive `skip()`
calls fire the `onSequenceComplete` callback and the broadcast event twice
in total, not once, and `complete()` invoked on the already-Completed
intermediate state is not a no-op (it emits events again). -/
theorem claim2_counterexample :
    (sequenceCompletePayloads ((skip witnessConfig 5 playingState).2
        ++ (skip witnessConfig 7 (skip witnessConfig 5 playingState).1).2)).length
      = 2 ∧
    (broadcastDetails ((skip witnessConfig 5 playingState).2
        ++ (skip witnessConfig 7 (skip witnessConfig 5 playingState).1).2)).length
      = 2 ∧
    (skip witnessConfig 5 playingState).1.isCompleted = true ∧
    (complete witnessConfig 7 (skip witnessConfig 5 playingState).1).2 ≠ [] := by
  decide

/-- C2 (amended): `complete()` has no idempotence guard.  Each call — also
from an already-Completed state — unconditionally sets the state to
Completed and fires the `onSequenceComplete` callback and the broadcast
event exactly once per call, and `skip()` delegates to `complete()` after
cancelling tracked timers; consequently two successive `complete()`/
`skip()` calls fire the callback and the broadcast twice in total. -/
theorem claim2_complete_unguarded (cfg : Config) (t1 t2 : Nat) (s : State) :
    (sequenceCompletePayloads (complete cfg t1 s).2).length = 1 ∧
    (broadcastDetails (complete cfg t1 s).2).length = 1 ∧
    (complete cfg t1 s).1.isCompleted = true ∧
    skip cfg t1 s = complete cfg t1 (clearTimeouts s) ∧
    (sequenceCompletePayloads ((complete cfg t1 s).2
        ++ (complete cfg t2 (complete cfg t1 s).1).2)).length = 2 ∧
    (broadcastDetails ((complete cfg t1 s).2
        ++ (complete cfg t2 (complete cfg t1 s).1).2)).length = 2 := by
  refine ⟨?_, ?_, rfl, rfl, ?_, ?_⟩ <;>
    simp [complete, sequenceCompletePayloads, broadcastDetails]

/-- Counterexample for C3: in a completed play-through of the concrete
three-message configuration, the broadcast `introSlidesComplete` detail
delivered to subscribers is `{ component, duration }`: it has no
`itemCount` field and no `durationMs` field (the callback payload's count
field is named `slideCount`), contradicting the claimed payload record
`{ durationMs, itemCount }`. -/
theorem claim3_counterexample :
    broadcastDetails (start witnessConfig 0 3 initialState).2
      = [[("component", JsValue.componentRef),
          ("duration", JsValue.num 3)]] ∧
    List.lookup "itemCount"
        [(("component" : String), JsValue.componentRef),
          ("duration", JsValue.num 3)] = none ∧
    List.lookup "durationMs"
        [(("component" : String), JsValue.componentRef),
          ("duration", JsValue.num 3)] = none ∧
    sequenceCompletePayloads (start witnessConfig 0 3 initialState).2
      = [[("duration", JsValue.num 3), ("slideCount", JsValue.num 3)]] ∧
    List.lookup "durationMs"
        [(("duration" : String), JsValue.num 3),
          ("slideCount", JsValue.num 3)] = none ∧
    List.lookup "itemCount"
        [(("duration" : String), JsValue.num 3),
          ("slideCount", JsValue.num 3)] = none := by
  decide

/-- C3 (amended): when a play-through completes, the sequencer dispatches
its named completion event `introSlidesComplete` exactly once, with detail
`{ component, duration: number }` — carrying no item count — while the
`onSequenceComplete` callback receives `{ duration: number, slideCount:
number }`; neither record has fields named `durationMs` or `itemCount`. -/
theorem claim3_broadcast_contract (cfg : Config) (t0 t1 : Nat) (s : State)
    (hplay : s.isPlaying = false) (hcomp : s.isCompleted = false) :
    broadcastDetails (start cfg t0 t1 s).2
      = [[("component", JsValue.componentRef),
          ("duration", JsValue.num ((t1 : Int) - (t0 : Int)))]] ∧
    sequenceCompletePayloads (start cfg t0 t1 s).2
      = [[("duration", JsValue.num ((t1 : Int) - (t0 : Int))),
          ("slideCount", JsValue.num cfg.messages.length)]] := by
  unfold start
  rw [if_neg (by simp [hplay, hcomp])]
  unfold playSequence
  dsimp only
  rw [if_pos (by rw [playLoopOver_isPlaying, playLoopOver_isPaused]; rfl)]
  have hst : (playLoopOver cfg (startStateUpdate t0 s)
      (List.range cfg.messages.length)).1.startTime = some t0 := by
    rw [playLoopOver_startTime]; rfl
  constructor
  · rw [broadcastDetails_append, broadcastDetails_append,
      broadcastDetails_playLoopOver]
    simp [wait, complete, broadcastDetails, hst]
  · rw [sequenceCompletePayloads_append, sequenceCompletePayloads_append,
      sequenceCompletePayloads_playLoopOver]
    simp [wait, complete, sequenceCompletePayloads, hst]

/-- Witness for the amended C3 on the concrete three-message
configuration. -/
theorem claim3_witness :
    initialState.isPlaying = false ∧ initialState.isCompleted = false ∧
    (broadcastDetails (start witnessConfig 2 9 initialState).2
        = [[("component", JsValue.componentRef),
            ("duration", JsValue.num ((9 : Int) - (2 : Int)))]] ∧
      sequenceCompletePayloads (start witnessConfig 2 9 initialState).2
        = [[("duration", JsValue.num ((9 : Int) - (2 : Int))),
            ("slideCount", JsValue.num witnessConfig.messages.length)]]) :=
  ⟨rfl, rfl, claim3_broadcast_contract witnessConfig 2 9 initialState rfl rfl⟩

/-- C4: `pause()` from Playing cancels every tracked timer (the pending
suspensions of the play loop) and preserves `currentSlide`, so at the
moment the Paused state is entered no play-loop suspension is pending;
`pause()` from any state that is not playing-and-unpaused is a no-op; and
while paused, the play loop neither runs nor schedules anything (the loop
and both sequence drivers return immediately with no events). -/
theorem claim4_pause_cancels_timers (cfg : Config) (t : Nat) (s : State)
    (l : List Nat) :
    (s.isPlaying = true → s.isPaused = false →
      pause s = { s with isPaused := true, timeouts := [] }) ∧
    (pause s).currentSlide = s.currentSlide ∧
    (s.isPlaying = false ∨ s.isPaused = true → pause s = s) ∧
    (s.isPaused = true →
      playLoopOver cfg s l = (s, []) ∧
      playSequence cfg t s = (s, []) ∧
      continueSequence cfg t s = (s, [])) := by
  refine ⟨?_, ?_, ?_, ?_⟩
  · intro hp hq
    unfold pause
    rw [if_neg (by simp [hp, hq])]
    rfl
  · unfold pause
    split <;> rfl
  · intro h
    unfold pause
    rcases h with h | h <;> rw [if_pos (by simp [h])]
  · intro hq
    refine ⟨playLoopOver_paused cfg s hq l, ?_, ?_⟩
    · unfold playSequence
      dsimp only
      rw [playLoopOver_paused cfg s hq]
      simp [hq]
    · unfold continueSequence
      dsimp only
      rw [playLoopOver_paused cfg s hq]
      simp [hq]

/-- Witness for C4: pausing the concrete playing state (two pending
timers) empties the timer list and keeps `currentSlide = 1`; the loop from
the concrete paused state does nothing. -/
theorem claim4_witness :
    playingState.isPlaying = true ∧ playingState.isPaused = false ∧
    pause playingState = { playingState with isPaused := true, timeouts := [] } ∧
    pausedState.isPaused = true ∧
    playLoopOver witnessConfig pausedState [2] = (pausedState, []) :=
  ⟨rfl, rfl,
    (claim4_pause_cancels_timers witnessConfig 0 playingState [2]).1 rfl rfl,
    rfl,
    ((claim4_pause_cancels_timers witnessConfig 0 pausedState [2]).2.2.2 rfl).1⟩

/-- C5: from a Paused state with `currentSlide = k`, `resume()` clears the
paused flag (back to Playing) and restarts the play loop at `k + 1`: the
`onSlideStart` indices of the resumed run are exactly
`k+1 .. messages.length - 1` in order — item `k` is not re-shown, no index
`≤ k` is re-fired, no index fires twice — and the run completes once;
`resume()` from any state that is not playing-and-paused is a no-op. -/
theorem claim5_resume_continues (cfg : Config) (t : Nat) (s : State) (k : Nat)
    (hk : s.currentSlide = (k : Int)) (hp : s.isPlaying = true)
    (hq : s.isPaused = true)
    (hS : cfg.messages.length ≤ cfg.numSlides) :
    slideStartIndices (resume cfg t s).2
      = List.range' (k + 1) (cfg.messages.length - (k + 1)) ∧
    (∀ j ∈ slideStartIndices (resume cfg t s).2, k < j) ∧
    (slideStartIndices (resume cfg t s).2).Nodup ∧
    (sequenceCompletePayloads (resume cfg t s).2).length = 1 ∧
    (resumeStateUpdate s).isPlaying = true ∧
    (resumeStateUpdate s).isPaused = false ∧
    (∀ s2 : State, s2.isPlaying = false ∨ s2.isPaused = false →
      resume cfg t s2 = (s2, [])) := by
  have hres : resume cfg t s = continueSequence cfg t (resumeStateUpdate s) := by
    unfold resume
    rw [if_neg (by simp [hp, hq])]
  have hfirst : ((resumeStateUpdate s).currentSlide + 1).toNat = k + 1 := by
    show (s.currentSlide + 1).toNat = k + 1
    rw [hk]
    omega
  have hbound : ∀ i ∈ List.range' (k + 1) (cfg.messages.length - (k + 1)),
      i < cfg.numSlides := by
    intro i hi
    have := List.mem_range'_1.mp hi
    omega
  have hcond : ((playLoopOver cfg (resumeStateUpdate s)
      (List.range' (k + 1) (cfg.messages.length - (k + 1)))).1.isPlaying
        && !(playLoopOver cfg (resumeStateUpdate s)
            (List.range' (k + 1) (cfg.messages.length - (k + 1)))).1.isPaused)
      = true := by
    rw [playLoopOver_isPlaying, playLoopOver_isPaused]
    simp [resumeStateUpdate, hp]
  have htrace : slideStartIndices (resume cfg t s).2
      = List.range' (k + 1) (cfg.messages.length - (k + 1)) := by
    rw [hres]
    unfold continueSequence
    dsimp only
    rw [hfirst, if_pos hcond]
    rw [slideStartIndices_append, slideStartIndices_append,
      slideStartIndices_playLoopOver cfg _ _ (by simp [resumeStateUpdate, hp])
        rfl hbound]
    simp [wait, complete, slideStartIndices]
  refine ⟨htrace, ?_, ?_, ?_, hp, rfl, ?_⟩
  · rw [htrace]
    intro j hj
    have := List.mem_range'_1.mp hj
    omega
  · rw [htrace]
    exact List.nodup_range' _ _
  · rw [hres]
    unfold continueSequence
    dsimp only
    rw [hfirst, if_pos hcond]
    rw [sequenceCompletePayloads_append, sequenceCompletePayloads_append,
      sequenceCompletePayloads_playLoopOver]
    simp [wait, complete, sequenceCompletePayloads]
  · intro s2 h2
    unfold resume
    rcases h2 with h2 | h2 <;> rw [if_pos (by simp [h2])]

/-- Witness for C5: resuming the concrete paused state (paused at slide 1
of three messages) fires `onSlideStart` exactly at index 2. -/
theorem claim5_witness :
    pausedState.currentSlide = ((1 : Nat) : Int) ∧
    pausedState.isPlaying = true ∧ pausedState.isPaused = true ∧
    witnessConfig.messages.length ≤ witnessConfig.numSlides ∧
    slideStartIndices (resume witnessConfig 9 pausedState).2
      = List.range' 2 (witnessConfig.messages.length - 2) :=
  ⟨rfl, rfl, rfl, by decide,
    (claim5_resume_continues witnessConfig 9 pausedState 1 rfl rfl rfl
      (by decide)).1⟩

/-- Counterexample for C6: `start()` does not set `currentIndex` to `-1`.
From an idle, not-completed state with `currentSlide = 2`, the synchronous
part of `start()` leaves `currentSlide = 2`, and the ensuing play-through
observably marks slide 2 as exiting when slide 0 is shown (exit index list
`[2, 0, 1]` instead of the `[0, 1]` a reset to `-1` would produce). -/
theorem claim6_counterexample :
    (startStateUpdate 0 midState).currentSlide = 2 ∧
    ((startStateUpdate 0 midState).currentSlide = -1 → False) ∧
    slideExitIndices (start witnessConfig 0 9 midState).2 = [2, 0, 1] := by
  decide

/-- C6 (amended): `start()` is a no-op when the state is already Playing or
Completed; otherwise it sets the state to Playing, records the start
timestamp, and begins the play loop (which always iterates from index 0) —
but it leaves `currentIndex` unchanged rather than setting it to `-1`;
resetting `currentIndex` to `-1` is done by `resetSlides()` (called from
initialization and `restart()`), not by `start()`. -/
theorem claim6_start_behaviour (cfg : Config) (t0 t1 : Nat) (s : State) :
    (s.isPlaying = true ∨ s.isCompleted = true →
      start cfg t0 t1 s = (s, [])) ∧
    (s.isPlaying = false → s.isCompleted = false →
      start cfg t0 t1 s = playSequence cfg t1 (startStateUpdate t0 s)) ∧
    (startStateUpdate t0 s).isPlaying = true ∧
    (startStateUpdate t0 s).isPaused = false ∧
    (startStateUpdate t0 s).startTime = some t0 ∧
    (startStateUpdate t0 s).currentSlide = s.currentSlide ∧
    (resetSlides s).currentSlide = -1 := by
  refine ⟨?_, ?_, rfl, rfl, rfl, rfl, rfl⟩
  · intro h
    unfold start
    rcases h with h | h <;> rw [if_pos (by simp [h])]
  · intro h1 h2
    unfold start
    rw [if_neg (by simp [h1, h2])]

/-- Witness for the amended C6 at the concrete mid state. -/
theorem claim6_witness :
    midState.isPlaying = false ∧ midState.isCompleted = false ∧
    start witnessConfig 0 9 midState
      = playSequence witnessConfig 9 (startStateUpdate 0 midState) ∧
    (startStateUpdate 0 midState).currentSlide = midState.currentSlide :=
  ⟨rfl, rfl, (claim6_start_behaviour witnessConfig 0 9 midState).2.1 rfl rfl,
    (claim6_start_behaviour witnessConfig 0 9 midState).2.2.2.2.2.1⟩

/-- Counterexample for C9: the error fallback does not reveal the
remaining items immediately — from the concrete playing state at slide 1,
the remaining slide 2 is scheduled at a 400 ms delay (`index * 200`), not
0 ms, and slide 0, which is not a remaining item, is also (re)scheduled. -/
theorem claim9_counterexample :
    playingState.currentSlide = 1 ∧
    (400, FallbackTask.revealSlide 2) ∈ (handleError witnessConfig playingState).2 ∧
    ((400 : Nat) = 0 → False) ∧
    (0, FallbackTask.revealSlide 0) ∈ (handleError witnessConfig playingState).2 := by
  decide

/-- C9 (amended): when an exception reaches the play-loop boundary in
`start()`, `handleError` stops playback and degrades by scheduling the
reveal of every slide element `i` (all items, not only the remaining
ones) at a staggered delay of `i * 200` ms, without the per-item
transition animation, and schedules exactly one `complete()` call, at
`messages.length * 200 + 1000` ms, so the completion signal still fires
exactly once per play-through. -/
theorem claim9_error_fallback (cfg : Config) (s : State) :
    (handleError cfg s).1.isPlaying = false ∧
    (∀ i, i < cfg.numSlides →
      (i * 200, FallbackTask.revealSlide i) ∈ (handleError cfg s).2) ∧
    (cfg.messages.length * 200 + 1000, FallbackTask.callComplete)
      ∈ (handleError cfg s).2 ∧
    (handleError cfg s).2.countP isCallComplete = 1 := by
  refine ⟨rfl, ?_, ?_, ?_⟩
  · intro i hi
    unfold handleError
    dsimp only
    exact List.mem_append_left _
      (List.mem_map.mpr ⟨i, List.mem_range.mpr hi, rfl⟩)
  · unfold handleError
    dsimp only
    exact List.mem_append_right _ (by simp)
  · unfold handleError
    dsimp only
    rw [List.countP_append, List.countP_map]
    simp [isCallComplete, Function.comp]

/-- Witness for the amended C9 at the concrete playing state. -/
theorem claim9_witness :
    2 < witnessConfig.numSlides ∧
    (2 * 200, FallbackTask.revealSlide 2) ∈ (handleError witnessConfig playingState).2 ∧
    (handleError witnessConfig playingState).2.countP isCallComplete = 1 :=
  ⟨by decide,
    (claim9_error_fallback witnessConfig playingState).2.1 2 (by decide),
    (claim9_error_fallback witnessConfig playingState).2.2.2⟩

/-- C10: the two completion paths are not timing-equivalent but reveal the
same items: starting from the same fresh playing state
(`currentSlide = -1`), `playSequence` and `continueSequence` produce the
same event trace except for the trailing suspension before `complete()`,
which is a fixed 400 ms in `playSequence` and the configured `slideDelay`
in `continueSequence`; with the default `slideDelay = 800` the two delays
differ. -/
theorem claim10_completion_path_timing (cfg : Config) (t : Nat) (s : State)
    (hp : s.isPlaying = true) (hq : s.isPaused = false)
    (hc : s.currentSlide = -1) :
    ∃ E C : List Event,
      (playSequence cfg t s).2 = E ++ Event.waited 400 :: C ∧
      (continueSequence cfg t s).2 = E ++ Event.waited cfg.slideDelay :: C ∧
      (cfg.slideDelay = 800 → (400 : Nat) ≠ cfg.slideDelay) := by
  unfold playSequence continueSequence
  dsimp only
  rw [hc]
  have h0 : ((-1 : Int) + 1).toNat = 0 := by decide
  rw [h0, Nat.sub_zero, ← List.range_eq_range']
  have hcond : ((playLoopOver cfg s (List.range cfg.messages.length)).1.isPlaying
      && !(playLoopOver cfg s (List.range cfg.messages.length)).1.isPaused)
      = true := by
    rw [playLoopOver_isPlaying, playLoopOver_isPaused]
    simp [hp, hq]
  rw [if_pos hcond, if_pos hcond]
  refine ⟨(playLoopOver cfg s (List.range cfg.messages.length)).2,
    (complete cfg t
      (wait 400 (playLoopOver cfg s (List.range cfg.messages.length)).1).1).2,
    ?_, ?_, fun h => by omega⟩
  · simp only [List.append_assoc]
    rfl
  · simp only [List.append_assoc]
    rfl

/-- Witness for C10 at the concrete fresh playing state: the two traces
share the reveal prefix and differ in the trailing wait (400 vs 800). -/
theorem claim10_witness :
    freshPlayingState.isPlaying = true ∧ freshPlayingState.isPaused = false ∧
    freshPlayingState.currentSlide = -1 ∧
    (∃ E C : List Event,
      (playSequence witnessConfig 4 freshPlayingState).2
        = E ++ Event.waited 400 :: C ∧
      (continueSequence witnessConfig 4 freshPlayingState).2
        = E ++ Event.waited witnessConfig.slideDelay :: C ∧
      (witnessConfig.slideDelay = 800 → (400 : Nat) ≠ witnessConfig.slideDelay)) :=
  ⟨rfl, rfl, rfl,
    claim10_completion_path_timing witnessConfig 4 freshPlayingState rfl rfl rfl⟩

end IntroSlides

namespace LetterDisplay

/-- C7: progressive-reveal round trip — for every input paragraph and
every behaviour of the cancellation flag (the reveal may finish or be
aborted before any word), `animateParagraph` leaves the paragraph's
displayed text exactly equal to the original input text, with no
truncation or drift from the incremental word assembly, and marks the
paragraph complete. -/
theorem claim7_reveal_roundtrip (cfg : Config) (active : Nat → Bool)
    (text : String) :
    (animateParagraph cfg active text).finalText = text ∧
    (animateParagraph cfg active text).typedComplete = true :=
  ⟨rfl, rfl⟩

/-- Counterexample for C8: the delay is tripled by substring containment,
not by terminal punctuation at the end of the word — the word `U.S`
contains a `.` but does not end with terminal punctuation, yet its delay
is `3 * 50 = 150` rather than the base 50 the claim requires for it. -/
theorem claim8_counterexample :
    wordDelay 50 "U.S" = 150 ∧
    specEndsWithTerminal "U.S" = false ∧
    ((150 : Nat) = 50 → False) := by
  decide

/-- C8 (amended): in progressive reveal mode the per-word delay equals
three times the configured base typewriter delay exactly when the word
contains one of the characters `.`, `!`, `?` anywhere (so in particular
for every word ending in terminal punctuation, but also for words with
internal punctuation), and equals the base delay for every word containing
none of them. -/
theorem claim8_word_delay_rule (speed : Nat) (word : String)
    (h : 0 < speed) :
    (wordDelay speed word = speed * 3
      ↔ (word.data.contains '.' || word.data.contains '!'
          || word.data.contains '?') = true) ∧
    ((word.data.contains '.' || word.data.contains '!'
        || word.data.contains '?') = false →
      wordDelay speed word = speed) := by
  unfold wordDelay
  cases hb : (word.data.contains '.' || word.data.contains '!'
      || word.data.contains '?') with
  | false =>
    refine ⟨⟨fun he => ?_, fun hcontra => by simp at hcontra⟩, fun _ => by simp⟩
    rw [if_neg (by simp)] at he
    exact absurd he (by omega)
  | true =>
    simp

/-- Witness for the amended C8: with base speed 50, the word `Hi.` (which
contains and ends with a period) gets delay `50 * 3`. -/
theorem claim8_witness :
    0 < 50 ∧ wordDelay 50 "Hi." = 50 * 3 :=
  ⟨by decide, (claim8_word_delay_rule 50 "Hi." (by decide)).1.mpr (by decide)⟩

end LetterDisplay
